import Mathlib

/-!
Verification of the diffuse-pilot core: the queue manager
(`src/services/queue_manager.py`), the parameter resolver
(`src/services/prompt_agent.py`), and the request lifecycle state machine.

Python dictionaries holding optional parameter values are embedded as
structures of `Option` fields; a key that is absent from a dict and a key
that is present with value `None` are both embedded as `none`, which is
observationally equivalent at every use site of the resolver (`.get` returns
`None` for both).  Python floats carry no arithmetic in the resolver (they
are only copied and compared against `None`), so they are embedded as `ℚ`.
-/

namespace DiffusePilot

/-! ## Parameter resolver data model (prompt_agent.py) -/

/-- Python `or else` on optional dict values: keep the first value when it is
present, otherwise fall back to the second.  Used to embed both
`if d.get(k) is not None: target[k] = d[k]` override loops and
`if result.get(k) is None: result[k] = default` fill loops. -/
def opt_or {α : Type} (a b : Option α) : Option α :=
  match a with
  | some x => some x
  | none => b

/-- The six SD parameter keys handled by `PromptAgent._SD_PARAM_KEYS`,
as a structure of optional values (a sub-dict of the resolver dicts). -/
structure SDParamValues where
  steps : Option Int
  cfg_scale : Option ℚ
  sampler : Option String
  scheduler : Option String
  width : Option Int
  height : Option Int
deriving Repr, DecidableEq

/-- An `SDParamValues` with nothing set (the empty dict `{}`). -/
def SDParamValues.empty : SDParamValues :=
  ⟨none, none, none, none, none, none⟩

/-- The resolver's working dictionary (`result` in `_apply_defaults`): the
LLM output dict on entry, the fully resolved parameter dict on exit. -/
structure ParamDict where
  prompt : Option String
  negative_prompt : Option String
  steps : Option Int
  cfg_scale : Option ℚ
  sampler : Option String
  scheduler : Option String
  width : Option Int
  height : Option Int
  seed : Option Int
deriving Repr, DecidableEq

/-- The columns of `GenerationMetadata` (models/generation.py) read by the
resolver.  `negative_prompt` and `scheduler` are nullable columns; the
remaining columns are `nullable=False`. -/
structure PrevMetadata where
  prompt : String
  negative_prompt : Option String
  steps : Int
  cfg_scale : ℚ
  sampler : String
  scheduler : Option String
  seed : Int
  width : Int
  height : Int
deriving Repr, DecidableEq

/-- The global-settings dict consumed by the resolver
(built by `QueueManager._extract_global_settings`): the structured
`default_sd_params` map, the prompt suffix and the explicit seed. -/
structure GlobalSettingsBag where
  default_sd_params : SDParamValues
  default_prompt_suffix : Option String
  seed : Option Int
deriving Repr, DecidableEq

/-- A web-research result as consumed by the resolver: only its
`recommended_settings` sub-dict is read. -/
structure ResearchResult where
  recommended_settings : SDParamValues
deriving Repr, DecidableEq

/-- The application settings fields read by `_apply_defaults`
(config/settings.py; `default_sampler` and `default_scheduler` default to
`None` there, hence optional). -/
structure AppSettings where
  default_steps : Int
  default_cfg_scale : ℚ
  default_sampler : Option String
  default_scheduler : Option String
  default_width : Int
  default_height : Int
deriving Repr, DecidableEq

/-- The stock application settings (config/settings.py defaults). -/
def AppSettings.stock : AppSettings :=
  ⟨20, 7, none, none, 512, 512⟩

/-! ## Parameter resolver stages (`PromptAgent._apply_defaults`) -/

/-- Lines 229-236: the base `defaults` dict built from application settings.
`prompt`, `negative_prompt` and `seed` are not keys of this dict. -/
def base_defaults (app : AppSettings) : ParamDict :=
  { prompt := none
    negative_prompt := none
    steps := some app.default_steps
    cfg_scale := some app.default_cfg_scale
    sampler := app.default_sampler
    scheduler := app.default_scheduler
    width := some app.default_width
    height := some app.default_height
    seed := none }

/-- Lines 238-243: overwrite the defaults dict with every key of
`global_settings["default_sd_params"]` that is not `None`. -/
def gs_override_defaults (gs : Option GlobalSettingsBag) (d : ParamDict) : ParamDict :=
  match gs with
  | none => d
  | some g =>
    let p := g.default_sd_params
    { d with
      steps := opt_or p.steps d.steps
      cfg_scale := opt_or p.cfg_scale d.cfg_scale
      sampler := opt_or p.sampler d.sampler
      scheduler := opt_or p.scheduler d.scheduler
      width := opt_or p.width d.width
      height := opt_or p.height d.height }

/-- Lines 245-258: in follow-up mode, `defaults.update(...)` with the
previous metadata's values (`negative_prompt or ""` maps a null column to
the empty string). -/
def prev_update_defaults (prev : Option PrevMetadata) (d : ParamDict) : ParamDict :=
  match prev with
  | none => d
  | some m =>
    { d with
      prompt := some m.prompt
      negative_prompt := some (m.negative_prompt.getD "")
      steps := some m.steps
      cfg_scale := some m.cfg_scale
      sampler := some m.sampler
      scheduler := m.scheduler
      width := some m.width
      height := some m.height }

/-- Lines 260-263: fill every key of `result` that is `None` from the
defaults dict (the defaults dict never carries a `seed` key). -/
def fill_missing (d : ParamDict) (r : ParamDict) : ParamDict :=
  { prompt := opt_or r.prompt d.prompt
    negative_prompt := opt_or r.negative_prompt d.negative_prompt
    steps := opt_or r.steps d.steps
    cfg_scale := opt_or r.cfg_scale d.cfg_scale
    sampler := opt_or r.sampler d.sampler
    scheduler := opt_or r.scheduler d.scheduler
    width := opt_or r.width d.width
    height := opt_or r.height d.height
    seed := r.seed }

/-- Lines 265-270: on new requests only, fill the SD parameter keys still
`None` from the research result's `recommended_settings`. -/
def research_fill (research : Option ResearchResult) (prev : Option PrevMetadata)
    (r : ParamDict) : ParamDict :=
  match research, prev with
  | some res, none =>
    let rc := res.recommended_settings
    { r with
      steps := opt_or r.steps rc.steps
      cfg_scale := opt_or r.cfg_scale rc.cfg_scale
      sampler := opt_or r.sampler rc.sampler
      scheduler := opt_or r.scheduler rc.scheduler
      width := opt_or r.width rc.width
      height := opt_or r.height rc.height }
  | _, _ => r

/-- Lines 272-277: final override of the SD parameter keys with every key of
`global_settings["default_sd_params"]` that is not `None`. -/
def gs_final_override (gs : Option GlobalSettingsBag) (r : ParamDict) : ParamDict :=
  match gs with
  | none => r
  | some g =>
    let p := g.default_sd_params
    { r with
      steps := opt_or p.steps r.steps
      cfg_scale := opt_or p.cfg_scale r.cfg_scale
      sampler := opt_or p.sampler r.sampler
      scheduler := opt_or p.scheduler r.scheduler
      width := opt_or p.width r.width
      height := opt_or p.height r.height }

/-- Lines 279-289: in follow-up mode, overwrite each SD parameter key whose
previous-metadata attribute is not `None`, then `prompt` /
`negative_prompt` when the previous values are truthy (non-empty). -/
def prev_final_override (prev : Option PrevMetadata) (r : ParamDict) : ParamDict :=
  match prev with
  | none => r
  | some m =>
    let r1 :=
      { r with
        steps := some m.steps
        cfg_scale := some m.cfg_scale
        sampler := some m.sampler
        scheduler := opt_or m.scheduler r.scheduler
        width := some m.width
        height := some m.height }
    let r2 := if m.prompt ≠ "" then { r1 with prompt := some m.prompt } else r1
    if m.negative_prompt.getD "" ≠ "" then
      { r2 with negative_prompt := m.negative_prompt }
    else r2

/-- Python `str.strip(chars)`: drop every leading and trailing character
that belongs to `cs`. -/
def py_strip (cs : List Char) (s : String) : String :=
  String.mk (((s.data.dropWhile (· ∈ cs)).reverse.dropWhile (· ∈ cs)).reverse)

/-- Helper for the substring test: does `b` start with `a`? -/
def starts_with (a b : List Char) : Bool :=
  match a, b with
  | [], _ => true
  | _ :: _, [] => false
  | x :: xs, y :: ys => x == y && starts_with xs ys

/-- Helper for the substring test: does `needle` occur contiguously in the
haystack? -/
def contains_sub (needle : List Char) : List Char → Bool
  | [] => needle.isEmpty
  | c :: t => starts_with needle (c :: t) || contains_sub needle t

/-- Python `sub in s` on strings: contiguous-substring test. -/
def str_contains (sub s : String) : Bool :=
  contains_sub sub.data s.data

/-- Lines 291-295: append the global `default_prompt_suffix` (comma-joined,
then `strip(", ")`) when it is truthy and not already a substring of the
resolved prompt. -/
def apply_suffix (gs : Option GlobalSettingsBag) (r : ParamDict) : ParamDict :=
  match gs with
  | none => r
  | some g =>
    match g.default_prompt_suffix with
    | none => r
    | some sfx =>
      if sfx = "" then r
      else if str_contains sfx (r.prompt.getD "") then r
      else { r with prompt := some (py_strip [',', ' '] ((r.prompt.getD "") ++ ", " ++ sfx)) }

/-- Lines 297-303: the fixed baseline negative prompt substituted when the
resolved negative prompt is falsy. -/
def baseline_negative_prompt : String :=
  "worst quality, low quality, blurry, bad anatomy, bad hands, text, error, " ++
  "missing fingers, extra digit, fewer digits, cropped, jpeg artifacts, " ++
  "signature, watermark, username"

/-- Lines 297-303: substitute the baseline negative prompt when the resolved
one is absent or empty. -/
def apply_negative_default (r : ParamDict) : ParamDict :=
  if r.negative_prompt.getD "" = "" then
    { r with negative_prompt := some baseline_negative_prompt }
  else r

/-- Lines 305-310, `elif` branch: when the seed is still unset or equal to
the `-1` sentinel, store the randomly drawn value `rnd`. -/
def seed_fallback (rnd : Int) (r : ParamDict) : ParamDict :=
  match r.seed with
  | none => { r with seed := some rnd }
  | some s => if s = -1 then { r with seed := some rnd } else r

/-- Lines 305-310: the global settings' explicit seed wins; otherwise fall
back to the random draw.  `rnd` stands for the value produced by
`random.randint(0, 2**32 - 1)`. -/
def apply_seed (gs : Option GlobalSettingsBag) (rnd : Int) (r : ParamDict) : ParamDict :=
  match gs with
  | some g =>
    match g.seed with
    | some s => { r with seed := some s }
    | none => seed_fallback rnd r
  | none => seed_fallback rnd r

/-- `PromptAgent._apply_defaults` (prompt_agent.py lines 209-312): the
parameter resolver, as the composition of its source-order stages. -/
def apply_defaults (app : AppSettings) (result : ParamDict)
    (previous_metadata : Option PrevMetadata) (global_settings : Option GlobalSettingsBag)
    (research_result : Option ResearchResult) (rnd : Int) : ParamDict :=
  let defaults := prev_update_defaults previous_metadata
    (gs_override_defaults global_settings (base_defaults app))
  let r := fill_missing defaults result
  let r := research_fill research_result previous_metadata r
  let r := gs_final_override global_settings r
  let r := prev_final_override previous_metadata r
  let r := apply_suffix global_settings r
  let r := apply_negative_default r
  apply_seed global_settings rnd r

/-! ## Web research inside prompt generation (`PromptAgent`) -/

/-- `PromptAgent.WEB_RESEARCH_SKIP_KEYWORDS` (prompt_agent.py line 44). -/
def web_research_skip_keywords : List String :=
  ["リサーチなし", "リサーチしない", "調べないで", "すぐに生成"]

/-- `PromptAgent._perform_web_research` (prompt_agent.py lines 314-345):
the collaborator call `WebResearchService.research_best_practices` is
embedded as an oracle `research_call` returning either a result or a raised
exception; the skip-keyword check and the collaborator call both sit inside
the `try` block whose handler turns any exception into `None`. -/
def perform_web_research (research_call : String → Except String ResearchResult)
    (user_instruction : String) : Option ResearchResult :=
  if web_research_skip_keywords.any (fun k => str_contains k user_instruction) then none
  else
    match research_call user_instruction with
    | .ok r => some r
    | .error _ => none

/-- The research-and-resolve portion of `PromptAgent.generate_prompt`
(prompt_agent.py lines 84-125): research runs only for new requests with the
flag set; the resolver then runs on the LLM result; the research result is
attached to the output only when present.  The LLM call itself is embedded
as its output `llm_result`. -/
def generate_prompt_resolve (app : AppSettings)
    (research_call : String → Except String ResearchResult)
    (user_instruction : String) (llm_result : ParamDict)
    (previous_metadata : Option PrevMetadata) (global_settings : Option GlobalSettingsBag)
    (web_research : Bool) (rnd : Int) : ParamDict × Option ResearchResult :=
  let research_result : Option ResearchResult :=
    if web_research && previous_metadata.isNone then
      perform_web_research research_call user_instruction
    else none
  (apply_defaults app llm_result previous_metadata global_settings research_result rnd,
   research_result)

/-! ## Queue manager data model (queue_manager.py) -/

/-- `QueuedTask` (queue_manager.py lines 30-37): a `@dataclass(order=True)`,
so comparison is lexicographic over the fields in declaration order. -/
structure QueuedTask where
  priority : Int
  request_id : String
  use_gemini : Bool
  use_xai : Bool
deriving Repr, DecidableEq

/-- Python `bool` comparison: `False < True`. -/
def bool_lt (a b : Bool) : Bool := !a && b

/-- Python string `<`: lexicographic comparison of code points, a proper
prefix comparing smaller. -/
def chars_lt : List Char → List Char → Bool
  | [], [] => false
  | [], _ :: _ => true
  | _ :: _, [] => false
  | x :: xs, y :: ys =>
    decide (x.toNat < y.toNat) || (decide (x.toNat = y.toNat) && chars_lt xs ys)

/-- Python string `<` lifted to `String`. -/
def str_lt (a b : String) : Bool := chars_lt a.data b.data

/-- The dataclass `<` on `QueuedTask`: lexicographic tuple comparison over
(priority, request_id, use_gemini, use_xai), with Python's code-point
string ordering. -/
def task_lt (a b : QueuedTask) : Bool :=
  decide (a.priority < b.priority) ||
    (decide (a.priority = b.priority) &&
      (str_lt a.request_id b.request_id ||
        (a.request_id == b.request_id &&
          (bool_lt a.use_gemini b.use_gemini ||
            (a.use_gemini == b.use_gemini && bool_lt a.use_xai b.use_xai)))))

/-- Fallback element for out-of-range array reads (never reached on the
in-range indices used by the heap routines). -/
def dummy_task : QueuedTask := ⟨0, "", false, false⟩

/-- CPython `heapq._siftdown(heap, startpos, pos)` with `newitem` already
read from `heap[pos]`: walk the new item up toward the root while it
compares below its parent.  The structural `fuel` only bounds the
iteration count; `pos` strictly decreases each round, so any fuel of at
least `pos` makes this exactly the source loop (and fuel exhaustion
coincides with the loop-exit action anyway). -/
def heap_siftdown : Nat → Array QueuedTask → Nat → Nat → QueuedTask → Array QueuedTask
  | 0, h, _, pos, newitem => h.setD pos newitem
  | fuel + 1, h, startpos, pos, newitem =>
    if startpos < pos then
      let parentpos := (pos - 1) / 2
      let parent := h.getD parentpos dummy_task
      if task_lt newitem parent then
        heap_siftdown fuel (h.setD pos parent) startpos parentpos newitem
      else h.setD pos newitem
    else h.setD pos newitem

/-- CPython `heapq.heappush`: append then sift down from the new leaf. -/
def heap_push (h : Array QueuedTask) (item : QueuedTask) : Array QueuedTask :=
  let h1 := h.push item
  heap_siftdown (h1.size - 1) h1 0 (h1.size - 1) item

/-- CPython `heapq._siftup(heap, pos)` main loop (`endpos` is computed once
on entry, as in the source): bubble the hole down to a leaf following the
smaller child, then restore `newitem` and sift it down toward the root.
`childpos` strictly increases toward `endpos`, so fuel `endpos` suffices
for the loop to run exactly as in the source. -/
def heap_siftup_loop : Nat → Nat → Array QueuedTask → Nat → Nat → QueuedTask →
    Array QueuedTask
  | 0, _, h, startpos, pos, newitem => heap_siftdown pos (h.setD pos newitem) startpos pos newitem
  | fuel + 1, endpos, h, startpos, pos, newitem =>
    let childpos := 2 * pos + 1
    if childpos < endpos then
      let rightpos := childpos + 1
      let childpos :=
        if rightpos < endpos &&
            !(task_lt (h.getD childpos dummy_task) (h.getD rightpos dummy_task)) then
          rightpos
        else childpos
      heap_siftup_loop fuel endpos (h.setD pos (h.getD childpos dummy_task)) startpos childpos
        newitem
    else heap_siftdown pos (h.setD pos newitem) startpos pos newitem

/-- CPython `heapq.heappop`: swap the last element into the root and sift
up; `none` on an empty heap (where `asyncio.Queue.get` would suspend). -/
def heap_pop (h : Array QueuedTask) : Option (QueuedTask × Array QueuedTask) :=
  if h.size = 0 then none
  else
    let lastelt := h.getD (h.size - 1) dummy_task
    let h1 := h.pop
    if h1.size = 0 then some (lastelt, h1)
    else
      let returnitem := h1.getD 0 dummy_task
      let h2 := h1.setD 0 lastelt
      some (returnitem, heap_siftup_loop h2.size h2.size h2 0 0 lastelt)

/-- `QueueManager.enqueue_generation` (lines 123-137): the caller-supplied
priority is negated (the min-first heap then serves larger caller
priorities first) and a default-SD-mode task is pushed. -/
def enqueue_generation (q : Array QueuedTask) (request_id : String) (priority : Int) :
    Array QueuedTask :=
  heap_push q ⟨-priority, request_id, false, false⟩

/-- `QueueManager.enqueue_gemini_generation` (lines 139-153). -/
def enqueue_gemini_generation (q : Array QueuedTask) (request_id : String) (priority : Int) :
    Array QueuedTask :=
  heap_push q ⟨-priority, request_id, true, false⟩

/-- `QueueManager.enqueue_xai_generation` (lines 155-169). -/
def enqueue_xai_generation (q : Array QueuedTask) (request_id : String) (priority : Int) :
    Array QueuedTask :=
  heap_push q ⟨-priority, request_id, false, true⟩

/-- The provider pipeline selected by the worker. -/
inductive ProviderMode where
  | sd
  | gemini
  | xai
deriving Repr, DecidableEq

/-- The worker loop's dispatch on the task's mode flags
(queue_manager.py lines 181-186). -/
def dispatch_mode (t : QueuedTask) : ProviderMode :=
  if t.use_gemini then .gemini
  else if t.use_xai then .xai
  else .sd

/-- Drain the priority queue by repeated pops (the worker's successive
`queue.get()` calls), with enough fuel to empty it. -/
def drain : Nat → Array QueuedTask → List QueuedTask
  | 0, _ => []
  | fuel + 1, q =>
    match heap_pop q with
    | none => []
    | some (t, q1) => t :: drain fuel q1

/-- The order in which the worker dequeues the tasks currently queued. -/
def dequeue_order (q : Array QueuedTask) : List QueuedTask :=
  drain q.size q

/-! ## Persisted requests and the orchestrator (queue_manager.py) -/

/-- `RequestStatus` (models/generation.py lines 18-24). -/
inductive RequestStatus where
  | pending
  | processing
  | completed
  | failed
deriving Repr, DecidableEq

/-- The columns of `GenerationRequest` (models/generation.py lines 27-43)
that the core reads or writes. -/
structure GenerationRequest where
  id : String
  original_instruction : String
  web_research : Bool
  status : RequestStatus
  error_message : Option String
deriving Repr, DecidableEq

/-- The `status.in_([PENDING, PROCESSING])` selection used by
`_restore_pending_requests` (queue_manager.py lines 87-89). -/
def is_restorable (s : RequestStatus) : Bool :=
  match s with
  | .pending => true
  | .processing => true
  | _ => false

/-- `QueueManager._restore_pending_requests` (queue_manager.py lines
83-102): every persisted PENDING or PROCESSING request is reset to PENDING
and one in-memory task with priority `0` and both provider flags unset is
put on the queue for it; other rows are untouched.  Returns the updated
store and the list of tasks put on the queue, in iteration order. -/
def restore_pending_requests (store : List GenerationRequest) :
    List GenerationRequest × List QueuedTask :=
  let store1 := store.map fun r =>
    if is_restorable r.status then { r with status := .pending } else r
  let tasks := (store.filter fun r => is_restorable r.status).map fun r =>
    (⟨0, r.id, false, false⟩ : QueuedTask)
  (store1, tasks)

/-- `QueueManager._get_request` (queue_manager.py lines 374-380):
first row matching the id. -/
def lookup_request (store : List GenerationRequest) (id : String) :
    Option GenerationRequest :=
  store.find? fun r => r.id == id

/-- Apply `f` to every stored row whose id matches (the ORM mutation of the
fetched row; ids are unique in practice, see the nodup invariants below). -/
def update_request (store : List GenerationRequest) (id : String)
    (f : GenerationRequest → GenerationRequest) : List GenerationRequest :=
  store.map fun r => if r.id == id then f r else r

/-- The error kinds raised inside one task's pipeline
(error_handler.py: `ApplicationError` carries `.message`; any other
exception is stringified by the orchestrator's catch-all handler). -/
inductive PipelineError where
  | app (msg : String)
  | unexpected (msg : String)
deriving Repr, DecidableEq

/-- The human-readable message recorded for a pipeline error:
`e.message` for `ApplicationError`, `str(e)` otherwise
(queue_manager.py lines 360-372). -/
def PipelineError.message : PipelineError → String
  | .app msg => msg
  | .unexpected msg => msg

/-- `QueueManager._process_image_generation` (queue_manager.py lines
201-372) at commit granularity, with the settings/LLM/provider/storage
pipeline embedded as its outcome `pipeline`: a missing request raises
`DatabaseError` (an `ApplicationError`) before any commit; otherwise the
request ends COMPLETED on success, or FAILED with the error's
human-readable message on failure, and the original error is re-raised.
`_process_gemini_generation` and `_process_xai_generation` share exactly
this status/error-message logic. -/
def process_image_generation (store : List GenerationRequest) (request_id : String)
    (pipeline : Except PipelineError Unit) :
    List GenerationRequest × Except PipelineError Unit :=
  match lookup_request store request_id with
  | none => (store, .error (.app ("Request not found: " ++ request_id)))
  | some _ =>
    match pipeline with
    | .ok _ =>
      (update_request store request_id (fun r => { r with status := .completed }), .ok ())
    | .error e =>
      (update_request store request_id
        (fun r => { r with status := .failed, error_message := some e.message }),
       .error e)

/-- The externally visible effects of one worker-loop iteration
(queue_manager.py lines 175-197). -/
structure LoopIterationEffect where
  task_done_called : Bool
  slept : Bool
deriving Repr, DecidableEq

/-- One iteration of `QueueManager._worker_loop` after the dequeue, given
the outcome of the dispatched orchestrator call: on success
`queue.task_done()` is reached; when the orchestrator raises, control
jumps to the `except Exception` handler, which logs, sleeps the configured
retry interval and continues — skipping `task_done`. -/
def worker_loop_iteration (outcome : Except PipelineError Unit) : LoopIterationEffect :=
  match outcome with
  | .ok _ => { task_done_called := true, slept := false }
  | .error _ => { task_done_called := false, slept := true }

/-- The worker loop run over a list of dequeued tasks paired with their
pipeline outcomes: each iteration processes its task against the current
store and the loop continues regardless of per-task failure, recording the
iteration effects in order. -/
def run_worker (store : List GenerationRequest) :
    List (QueuedTask × Except PipelineError Unit) →
    List GenerationRequest × List LoopIterationEffect
  | [] => (store, [])
  | (t, pipe) :: rest =>
    let step := process_image_generation store t.request_id pipe
    let tail := run_worker step.1 rest
    (tail.1, worker_loop_iteration step.2 :: tail.2)

/-! ## Request lifecycle state machine

The core's public operations over the persisted store and the in-memory
queue, at the granularity of the orchestrator's status commits.  The queue
component records the request ids of queued tasks (the mode flags and the
priority do not affect request state: all three `_process_*` variants
commit the same status/error transitions, and the heap only chooses which
queued id is popped next — the `worker_begin` rules below allow popping any
queued id, which covers every heap order). -/

/-- Whether the single background worker is between the PROCESSING commit
and the final status commit of a request. -/
inductive WorkerPhase where
  | idle
  | started (id : String)
deriving Repr, DecidableEq

/-- A state of the core: persisted rows, queued request ids, worker phase. -/
structure CoreState where
  store : List GenerationRequest
  queue : List String
  worker : WorkerPhase
deriving Repr, DecidableEq

/-- The initial state: empty store, empty queue, idle worker. -/
def init_state : CoreState := ⟨[], [], .idle⟩

/-- One public-operation step of the core, with no admission discipline:
`enqueue` may target any request id, exactly as
`QueueManager.enqueue_generation` accepts any id. -/
inductive RawStep : CoreState → CoreState → Prop where
  /-- An admission point persists a new request row (discord_bot.py lines
  110-118): fresh uuid, default status PENDING, null error_message. -/
  | create (s : CoreState) (id instr : String) (wr : Bool)
      (hfresh : lookup_request s.store id = none) :
      RawStep s ⟨s.store ++ [⟨id, instr, wr, .pending, none⟩], s.queue, s.worker⟩
  /-- Any enqueue variant puts a task for `id` on the queue. -/
  | enqueue (s : CoreState) (id : String) :
      RawStep s ⟨s.store, s.queue ++ [id], s.worker⟩
  /-- `start()` runs `_restore_pending_requests` once, before the worker
  exists (`is_running` guards re-entry). -/
  | restore (s : CoreState) (hq : s.queue = []) (hw : s.worker = .idle) :
      RawStep s ⟨(restore_pending_requests s.store).1,
        ((restore_pending_requests s.store).2.map QueuedTask.request_id), .idle⟩
  /-- The idle worker pops a queued id whose row exists and commits
  status := PROCESSING (queue_manager.py lines 224-227). -/
  | worker_begin (s : CoreState) (id : String) (l1 l2 : List String)
      (hq : s.queue = l1 ++ id :: l2) (hw : s.worker = .idle)
      (hfound : (lookup_request s.store id).isSome = true) :
      RawStep s ⟨update_request s.store id (fun r => { r with status := .processing }),
        l1 ++ l2, .started id⟩
  /-- The idle worker pops a queued id with no persisted row: the
  orchestrator raises before any commit and the loop continues. -/
  | worker_begin_missing (s : CoreState) (id : String) (l1 l2 : List String)
      (hq : s.queue = l1 ++ id :: l2) (hw : s.worker = .idle)
      (hmiss : lookup_request s.store id = none) :
      RawStep s ⟨s.store, l1 ++ l2, .idle⟩
  /-- The pipeline succeeds: commit status := COMPLETED
  (queue_manager.py lines 354-356). -/
  | worker_complete (s : CoreState) (id : String) (hw : s.worker = .started id) :
      RawStep s ⟨update_request s.store id (fun r => { r with status := .completed }),
        s.queue, .idle⟩
  /-- The pipeline raises: commit status := FAILED with the error message
  (queue_manager.py lines 360-372). -/
  | worker_fail (s : CoreState) (id msg : String) (hw : s.worker = .started id) :
      RawStep s ⟨update_request s.store id
          (fun r => { r with status := .failed, error_message := some msg }),
        s.queue, .idle⟩

/-- States reachable through the public operations from the initial state. -/
inductive RawReach : CoreState → Prop where
  | init : RawReach init_state
  | step {s s1 : CoreState} : RawReach s → RawStep s s1 → RawReach s1

/-- The same step relation under the admission discipline the system's own
call sites obey: a task is enqueued only for a request that currently is
PENDING, is not already queued, and is not being processed; `restore` runs
only from `start()`, with nothing queued and no worker. -/
inductive Step : CoreState → CoreState → Prop where
  | create (s : CoreState) (id instr : String) (wr : Bool)
      (hfresh : lookup_request s.store id = none) :
      Step s ⟨s.store ++ [⟨id, instr, wr, .pending, none⟩], s.queue, s.worker⟩
  | enqueue (s : CoreState) (id : String) (r : GenerationRequest)
      (hr : lookup_request s.store id = some r) (hst : r.status = .pending)
      (hq : id ∉ s.queue) (hw : s.worker ≠ .started id) :
      Step s ⟨s.store, s.queue ++ [id], s.worker⟩
  | restore (s : CoreState) (hq : s.queue = []) (hw : s.worker = .idle) :
      Step s ⟨(restore_pending_requests s.store).1,
        ((restore_pending_requests s.store).2.map QueuedTask.request_id), .idle⟩
  | worker_begin (s : CoreState) (id : String) (l1 l2 : List String)
      (hq : s.queue = l1 ++ id :: l2) (hw : s.worker = .idle)
      (hfound : (lookup_request s.store id).isSome = true) :
      Step s ⟨update_request s.store id (fun r => { r with status := .processing }),
        l1 ++ l2, .started id⟩
  | worker_begin_missing (s : CoreState) (id : String) (l1 l2 : List String)
      (hq : s.queue = l1 ++ id :: l2) (hw : s.worker = .idle)
      (hmiss : lookup_request s.store id = none) :
      Step s ⟨s.store, l1 ++ l2, .idle⟩
  | worker_complete (s : CoreState) (id : String) (hw : s.worker = .started id) :
      Step s ⟨update_request s.store id (fun r => { r with status := .completed }),
        s.queue, .idle⟩
  | worker_fail (s : CoreState) (id msg : String) (hw : s.worker = .started id) :
      Step s ⟨update_request s.store id
          (fun r => { r with status := .failed, error_message := some msg }),
        s.queue, .idle⟩

/-- States reachable under the admission discipline. -/
inductive Reach : CoreState → Prop where
  | init : Reach init_state
  | step {s s1 : CoreState} : Reach s → Step s s1 → Reach s1

/-- The spec's error-message invariant: a row's `error_message` is non-null
exactly when its status is FAILED. -/
def error_message_invariant (store : List GenerationRequest) : Prop :=
  ∀ r ∈ store, (r.status = RequestStatus.failed ↔ r.error_message ≠ none)

instance (store : List GenerationRequest) : Decidable (error_message_invariant store) :=
  List.decidableBAll _ store

/-- The inductive invariant carried through admission-disciplined traces:
the error-message invariant itself, uniqueness of stored ids, uniqueness of
queued ids, every queued id naming a PENDING row, and the in-process id
naming a PROCESSING row with no error message and no queue entry. -/
def good_state (s : CoreState) : Prop :=
  error_message_invariant s.store ∧
  (s.store.map GenerationRequest.id).Nodup ∧
  s.queue.Nodup ∧
  (∀ id ∈ s.queue, ∃ r, lookup_request s.store id = some r ∧
    r.status = RequestStatus.pending) ∧
  (∀ id, s.worker = .started id →
    (∃ r, lookup_request s.store id = some r ∧ r.status = RequestStatus.processing ∧
      r.error_message = none) ∧ id ∉ s.queue)

/-! ## Auxiliary predicates and concrete instances used in the theorems -/

/-- No truthy global `default_prompt_suffix` is missing from `p`: under this
condition the suffix-append step leaves a resolved prompt equal to `p`
unchanged. -/
def suffix_absorbed (gs : Option GlobalSettingsBag) (p : String) : Prop :=
  ∀ g, gs = some g → ∀ sfx, g.default_prompt_suffix = some sfx →
    sfx = "" ∨ str_contains sfx p = true

/-- Follow-up previous metadata whose nullable `scheduler` column is null. -/
def prev_no_scheduler : PrevMetadata :=
  ⟨"prev prompt", some "prev neg", 30, 7, "Euler a", none, 42, 512, 512⟩

/-- Follow-up previous metadata with every nullable column populated. -/
def prev_full : PrevMetadata :=
  ⟨"prev prompt", some "prev neg", 30, 7, "Euler a", some "Karras", 42, 512, 512⟩

/-- An LLM result that proposes its own values for every field, including a
scheduler. -/
def llm_with_scheduler : ParamDict :=
  ⟨some "test prompt", some "neg", some 25, some 8, some "DDIM", some "Exponential",
   some 768, some 768, none⟩

/-- Priorities [5, 1, 5, 10] enqueued in that order, where the
first-enqueued priority-5 task has request id "b" and the second has the
lexicographically smaller id "a". -/
def queue_scenario_ba : Array QueuedTask :=
  enqueue_generation (enqueue_generation (enqueue_generation
    (enqueue_generation #[] "b" 5) "c" 1) "a" 5) "d" 10

/-- Priorities [5, 1, 5, 10] enqueued in that order, where the
first-enqueued priority-5 task has the lexicographically smaller id "a". -/
def queue_scenario_ab : Array QueuedTask :=
  enqueue_generation (enqueue_generation (enqueue_generation
    (enqueue_generation #[] "a" 5) "c" 1) "b" 5) "d" 10

/-- A state the public operations reach by creating request "r", processing
it to FAILED, then enqueueing the same id again and letting the worker
begin it: the row is PROCESSING while still carrying the stale FAILED
error message. -/
def stale_error_state : CoreState :=
  ⟨[⟨"r", "draw a fox", false, .processing, some "boom"⟩], [], .started "r"⟩

/-- Global settings whose structured default-parameters map explicitly sets
`steps = 45` and nothing else. -/
def gs_steps_45 : GlobalSettingsBag :=
  ⟨⟨some 45, none, none, none, none, none⟩, none, none⟩

/-- An LLM result suggesting `steps = 20`. -/
def llm_steps_20 : ParamDict :=
  ⟨some "a red fox in snow", some "neg", some 20, some 7, some "Euler a", none,
   some 512, some 512, none⟩

/-- Global settings carrying an explicit seed and nothing else. -/
def gs_explicit_seed : GlobalSettingsBag :=
  ⟨SDParamValues.empty, none, some 1234⟩

/-- A research collaborator that raises on every query. -/
def failing_research_call : String → Except String ResearchResult :=
  fun _ => .error "Google Search API error"

/-- A persisted request left PROCESSING by a crashed run. -/
def row_proc_1 : GenerationRequest := ⟨"p1", "inst one", false, .processing, none⟩

/-- A second persisted request left PROCESSING by a crashed run. -/
def row_proc_2 : GenerationRequest := ⟨"p2", "inst two", false, .processing, none⟩

/-- A persisted request that already COMPLETED. -/
def row_done : GenerationRequest := ⟨"c1", "inst three", true, .completed, none⟩

/-- A PENDING persisted request. -/
def row_pending_a : GenerationRequest := ⟨"a1", "make art", false, .pending, none⟩

/-- Another PENDING persisted request with a distinct id. -/
def row_pending_b : GenerationRequest := ⟨"b1", "make more art", false, .pending, none⟩

/-! ## Resolver stage lemmas -/

theorem apply_suffix_keeps (gs : Option GlobalSettingsBag) (r : ParamDict) :
    (apply_suffix gs r).negative_prompt = r.negative_prompt ∧
    (apply_suffix gs r).steps = r.steps ∧
    (apply_suffix gs r).cfg_scale = r.cfg_scale ∧
    (apply_suffix gs r).sampler = r.sampler ∧
    (apply_suffix gs r).scheduler = r.scheduler ∧
    (apply_suffix gs r).width = r.width ∧
    (apply_suffix gs r).height = r.height ∧
    (apply_suffix gs r).seed = r.seed := by
  cases gs with
  | none => exact ⟨rfl, rfl, rfl, rfl, rfl, rfl, rfl, rfl⟩
  | some g =>
    cases hs : g.default_prompt_suffix with
    | none => simp [apply_suffix, hs]
    | some sfx =>
      simp only [apply_suffix, hs]
      split <;> (try split) <;> simp

theorem apply_suffix_prompt_absorbed (gs : Option GlobalSettingsBag) (r : ParamDict)
    (p : String) (hr : r.prompt = some p) (habs : suffix_absorbed gs p) :
    (apply_suffix gs r).prompt = some p := by
  cases gs with
  | none => exact hr
  | some g =>
    cases hs : g.default_prompt_suffix with
    | none => simpa [apply_suffix, hs] using hr
    | some sfx =>
      rcases habs g rfl sfx hs with he | hc
      · simp [apply_suffix, hs, he, hr]
      · simp [apply_suffix, hs, hr, hc]

theorem apply_negative_default_keeps (r : ParamDict) :
    (apply_negative_default r).prompt = r.prompt ∧
    (apply_negative_default r).steps = r.steps ∧
    (apply_negative_default r).cfg_scale = r.cfg_scale ∧
    (apply_negative_default r).sampler = r.sampler ∧
    (apply_negative_default r).scheduler = r.scheduler ∧
    (apply_negative_default r).width = r.width ∧
    (apply_negative_default r).height = r.height ∧
    (apply_negative_default r).seed = r.seed := by
  unfold apply_negative_default
  split <;> simp

theorem apply_negative_default_of_nonempty (r : ParamDict)
    (h : r.negative_prompt.getD "" ≠ "") : apply_negative_default r = r := by
  unfold apply_negative_default
  rw [if_neg h]

theorem apply_seed_keeps (gs : Option GlobalSettingsBag) (rnd : Int) (r : ParamDict) :
    (apply_seed gs rnd r).prompt = r.prompt ∧
    (apply_seed gs rnd r).negative_prompt = r.negative_prompt ∧
    (apply_seed gs rnd r).steps = r.steps ∧
    (apply_seed gs rnd r).cfg_scale = r.cfg_scale ∧
    (apply_seed gs rnd r).sampler = r.sampler ∧
    (apply_seed gs rnd r).scheduler = r.scheduler ∧
    (apply_seed gs rnd r).width = r.width ∧
    (apply_seed gs rnd r).height = r.height := by
  have hfb : ∀ rd : Int, (seed_fallback rd r).prompt = r.prompt ∧
      (seed_fallback rd r).negative_prompt = r.negative_prompt ∧
      (seed_fallback rd r).steps = r.steps ∧
      (seed_fallback rd r).cfg_scale = r.cfg_scale ∧
      (seed_fallback rd r).sampler = r.sampler ∧
      (seed_fallback rd r).scheduler = r.scheduler ∧
      (seed_fallback rd r).width = r.width ∧
      (seed_fallback rd r).height = r.height := by
    intro rd
    cases hsd : r.seed with
    | none => simp [seed_fallback, hsd]
    | some s =>
      simp only [seed_fallback, hsd]
      split <;> simp
  cases gs with
  | none => exact hfb rnd
  | some g =>
    cases hg : g.seed with
    | none => simpa [apply_seed, hg] using hfb rnd
    | some sc => simp [apply_seed, hg]

theorem apply_seed_explicit (g : GlobalSettingsBag) (rnd : Int) (r : ParamDict)
    (sc : Int) (hg : g.seed = some sc) :
    apply_seed (some g) rnd r = { r with seed := some sc } := by
  simp [apply_seed, hg]

theorem prev_final_override_params (m : PrevMetadata) (r : ParamDict) :
    (prev_final_override (some m) r).steps = some m.steps ∧
    (prev_final_override (some m) r).cfg_scale = some m.cfg_scale ∧
    (prev_final_override (some m) r).sampler = some m.sampler ∧
    (prev_final_override (some m) r).width = some m.width ∧
    (prev_final_override (some m) r).height = some m.height ∧
    (prev_final_override (some m) r).scheduler = opt_or m.scheduler r.scheduler := by
  simp only [prev_final_override]
  split <;> split <;> simp

theorem prev_final_override_prompt (m : PrevMetadata) (r : ParamDict)
    (hp : m.prompt ≠ "") : (prev_final_override (some m) r).prompt = some m.prompt := by
  simp only [prev_final_override]
  split <;> simp_all

theorem prev_final_override_negative (m : PrevMetadata) (r : ParamDict)
    (hn : m.negative_prompt.getD "" ≠ "") :
    (prev_final_override (some m) r).negative_prompt = m.negative_prompt := by
  simp only [prev_final_override]
  simp [hn]

theorem gs_final_override_params (g : GlobalSettingsBag) (r : ParamDict) :
    (gs_final_override (some g) r).steps = opt_or g.default_sd_params.steps r.steps ∧
    (gs_final_override (some g) r).cfg_scale =
      opt_or g.default_sd_params.cfg_scale r.cfg_scale ∧
    (gs_final_override (some g) r).sampler = opt_or g.default_sd_params.sampler r.sampler ∧
    (gs_final_override (some g) r).scheduler =
      opt_or g.default_sd_params.scheduler r.scheduler ∧
    (gs_final_override (some g) r).width = opt_or g.default_sd_params.width r.width ∧
    (gs_final_override (some g) r).height = opt_or g.default_sd_params.height r.height := by
  simp [gs_final_override]

theorem apply_defaults_eq (app : AppSettings) (result : ParamDict)
    (prev : Option PrevMetadata) (gs : Option GlobalSettingsBag)
    (research : Option ResearchResult) (rnd : Int) :
    apply_defaults app result prev gs research rnd =
      apply_seed gs rnd (apply_negative_default (apply_suffix gs (prev_final_override prev
        (gs_final_override gs (research_fill research prev (fill_missing
          (prev_update_defaults prev (gs_override_defaults gs (base_defaults app)))
          result)))))) := rfl

/-! ## Claim C1 -/

/-- Claim C1 does not hold as stated: in follow-up mode with a previous
metadata whose nullable scheduler column is null, the resolved scheduler is
the LLM's suggestion, not the previous metadata's null value. -/
theorem c1_counterexample :
    ¬ ((apply_defaults AppSettings.stock llm_with_scheduler (some prev_no_scheduler)
        none none 0).scheduler = prev_no_scheduler.scheduler) := by
  decide

/-- Claim C1 (amended): in follow-up mode the resolved steps, cfg_scale,
sampler, width and height always equal the previous metadata's values; the
scheduler equals it whenever the previous scheduler is non-null; the
negative prompt equals it whenever the previous negative prompt is
non-empty; and the prompt equals it whenever the previous prompt is
non-empty and no truthy global prompt suffix is missing from it. -/
theorem c1_follow_up_override (app : AppSettings) (r : ParamDict) (m : PrevMetadata)
    (gs : Option GlobalSettingsBag) (research : Option ResearchResult) (rnd : Int) :
    (apply_defaults app r (some m) gs research rnd).steps = some m.steps ∧
    (apply_defaults app r (some m) gs research rnd).cfg_scale = some m.cfg_scale ∧
    (apply_defaults app r (some m) gs research rnd).sampler = some m.sampler ∧
    (apply_defaults app r (some m) gs research rnd).width = some m.width ∧
    (apply_defaults app r (some m) gs research rnd).height = some m.height ∧
    (m.scheduler ≠ none →
      (apply_defaults app r (some m) gs research rnd).scheduler = m.scheduler) ∧
    (m.negative_prompt.getD "" ≠ "" →
      (apply_defaults app r (some m) gs research rnd).negative_prompt = m.negative_prompt) ∧
    (m.prompt ≠ "" → suffix_absorbed gs m.prompt →
      (apply_defaults app r (some m) gs research rnd).prompt = some m.prompt) := by
  rw [apply_defaults_eq]
  set X := gs_final_override gs (research_fill research (some m) (fill_missing
    (prev_update_defaults (some m) (gs_override_defaults gs (base_defaults app))) r))
    with hX
  set R4 := prev_final_override (some m) X with hR4
  set R5 := apply_suffix gs R4 with hR5
  set R6 := apply_negative_default R5 with hR6
  obtain ⟨a1, a2, a3, a4, a5, a6, a7, a8⟩ := apply_seed_keeps gs rnd R6
  obtain ⟨b1, b2, b3, b4, b5, b6, b7, _⟩ := apply_negative_default_keeps R5
  obtain ⟨g1, g2, g3, g4, g5, g6, g7, _⟩ := apply_suffix_keeps gs R4
  obtain ⟨p1, p2, p3, p4, p5, p6⟩ := prev_final_override_params m X
  refine ⟨?_, ?_, ?_, ?_, ?_, ?_, ?_, ?_⟩
  · rw [a3, b2, g2, p1]
  · rw [a4, b3, g3, p2]
  · rw [a5, b4, g4, p3]
  · rw [a7, b6, g6, p4]
  · rw [a8, b7, g7, p5]
  · intro hm
    cases hms : m.scheduler with
    | none => exact absurd hms hm
    | some s =>
      rw [a6, b5, g5, p6, hms]
      rfl
  · intro hn
    have h4 : R4.negative_prompt = m.negative_prompt :=
      prev_final_override_negative m X hn
    have h5 : R5.negative_prompt = m.negative_prompt := g1.trans h4
    have h6 : R6 = R5 := apply_negative_default_of_nonempty R5 (by rw [h5]; exact hn)
    rw [a2, h6, h5]
  · intro hp habs
    have h4 : R4.prompt = some m.prompt := prev_final_override_prompt m X hp
    have h5 : R5.prompt = some m.prompt :=
      apply_suffix_prompt_absorbed gs R4 m.prompt h4 habs
    rw [a1, b1, h5]

/-- Claim C1 witness: a concrete follow-up resolution with every nullable
previous column populated, where the amended statement pins all eight
fields to the previous metadata. -/
theorem c1_follow_up_override_witness :
    (apply_defaults AppSettings.stock llm_with_scheduler (some prev_full)
      none none 0).steps = some 30 ∧
    (apply_defaults AppSettings.stock llm_with_scheduler (some prev_full)
      none none 0).scheduler = some "Karras" ∧
    (apply_defaults AppSettings.stock llm_with_scheduler (some prev_full)
      none none 0).negative_prompt = some "prev neg" ∧
    (apply_defaults AppSettings.stock llm_with_scheduler (some prev_full)
      none none 0).prompt = some "prev prompt" := by
  obtain ⟨h1, _, _, _, _, h6, h7, h8⟩ :=
    c1_follow_up_override AppSettings.stock llm_with_scheduler prev_full none none 0
  refine ⟨h1, ?_, ?_, ?_⟩
  · exact h6 (by decide)
  · exact h7 (by decide)
  · exact h8 (by decide) (by intro g hg; cases hg)

/-! ## Claim C5 -/

/-- Claim C5: on a new-request resolution, every SD parameter field
explicitly set in the global settings' structured default-parameters map
equals the global-settings value in the resolver output, whatever the LLM
result, the research result or the application defaults supplied. -/
theorem c5_global_settings_win (app : AppSettings) (r : ParamDict)
    (g : GlobalSettingsBag) (research : Option ResearchResult) (rnd : Int) :
    (∀ v, g.default_sd_params.steps = some v →
      (apply_defaults app r none (some g) research rnd).steps = some v) ∧
    (∀ v, g.default_sd_params.cfg_scale = some v →
      (apply_defaults app r none (some g) research rnd).cfg_scale = some v) ∧
    (∀ v, g.default_sd_params.sampler = some v →
      (apply_defaults app r none (some g) research rnd).sampler = some v) ∧
    (∀ v, g.default_sd_params.scheduler = some v →
      (apply_defaults app r none (some g) research rnd).scheduler = some v) ∧
    (∀ v, g.default_sd_params.width = some v →
      (apply_defaults app r none (some g) research rnd).width = some v) ∧
    (∀ v, g.default_sd_params.height = some v →
      (apply_defaults app r none (some g) research rnd).height = some v) := by
  rw [apply_defaults_eq]
  set Z := research_fill research none (fill_missing
    (prev_update_defaults none (gs_override_defaults (some g) (base_defaults app))) r)
    with hZ
  set Y := gs_final_override (some g) Z with hY
  have hprev : prev_final_override none Y = Y := rfl
  rw [hprev]
  set R5 := apply_suffix (some g) Y with hR5
  set R6 := apply_negative_default R5 with hR6
  obtain ⟨_, _, a3, a4, a5, a6, a7, a8⟩ := apply_seed_keeps (some g) rnd R6
  obtain ⟨_, b2, b3, b4, b5, b6, b7, _⟩ := apply_negative_default_keeps R5
  obtain ⟨_, g2, g3, g4, g5, g6, g7, _⟩ := apply_suffix_keeps (some g) Y
  obtain ⟨q1, q2, q3, q4, q5, q6⟩ := gs_final_override_params g Z
  refine ⟨?_, ?_, ?_, ?_, ?_, ?_⟩ <;> intro v hv
  · rw [a3, b2, g2, q1, hv]; rfl
  · rw [a4, b3, g3, q2, hv]; rfl
  · rw [a5, b4, g4, q3, hv]; rfl
  · rw [a6, b5, g5, q4, hv]; rfl
  · rw [a7, b6, g6, q5, hv]; rfl
  · rw [a8, b7, g7, q6, hv]; rfl

/-- Claim C5 witness: with `default_sd_params.steps = 45` in global
settings and an LLM suggestion of `steps = 20`, the resolved steps is 45. -/
theorem c5_global_settings_win_witness :
    (apply_defaults AppSettings.stock llm_steps_20 none (some gs_steps_45)
      none 0).steps = some 45 := by
  obtain ⟨h1, _, _, _, _, _⟩ :=
    c5_global_settings_win AppSettings.stock llm_steps_20 gs_steps_45 none 0
  exact h1 45 (by decide)

/-! ## Claim C8 -/

/-- Claim C8: two resolver calls on identical inputs agree on every field
except possibly the seed; when the global settings carry an explicit seed
the two outputs are identical, seed included (the random draw `rnd` is the
only nondeterministic input). -/
theorem c8_deterministic_except_seed (app : AppSettings) (r : ParamDict)
    (prev : Option PrevMetadata) (gs : Option GlobalSettingsBag)
    (research : Option ResearchResult) (rnd1 rnd2 : Int) :
    (apply_defaults app r prev gs research rnd1).prompt =
      (apply_defaults app r prev gs research rnd2).prompt ∧
    (apply_defaults app r prev gs research rnd1).negative_prompt =
      (apply_defaults app r prev gs research rnd2).negative_prompt ∧
    (apply_defaults app r prev gs research rnd1).steps =
      (apply_defaults app r prev gs research rnd2).steps ∧
    (apply_defaults app r prev gs research rnd1).cfg_scale =
      (apply_defaults app r prev gs research rnd2).cfg_scale ∧
    (apply_defaults app r prev gs research rnd1).sampler =
      (apply_defaults app r prev gs research rnd2).sampler ∧
    (apply_defaults app r prev gs research rnd1).scheduler =
      (apply_defaults app r prev gs research rnd2).scheduler ∧
    (apply_defaults app r prev gs research rnd1).width =
      (apply_defaults app r prev gs research rnd2).width ∧
    (apply_defaults app r prev gs research rnd1).height =
      (apply_defaults app r prev gs research rnd2).height ∧
    (∀ g sc, gs = some g → g.seed = some sc →
      apply_defaults app r prev gs research rnd1 =
        apply_defaults app r prev gs research rnd2) := by
  rw [apply_defaults_eq, apply_defaults_eq]
  set B := apply_negative_default (apply_suffix gs (prev_final_override prev
    (gs_final_override gs (research_fill research prev (fill_missing
      (prev_update_defaults prev (gs_override_defaults gs (base_defaults app)))
      r))))) with hB
  obtain ⟨a1, a2, a3, a4, a5, a6, a7, a8⟩ := apply_seed_keeps gs rnd1 B
  obtain ⟨c1, c2, c3, c4, c5, c6, c7, c8⟩ := apply_seed_keeps gs rnd2 B
  refine ⟨a1.trans c1.symm, a2.trans c2.symm, a3.trans c3.symm, a4.trans c4.symm,
    a5.trans c5.symm, a6.trans c6.symm, a7.trans c7.symm, a8.trans c8.symm, ?_⟩
  intro g sc hgs hseed
  subst hgs
  rw [apply_seed_explicit g rnd1 B sc hseed, apply_seed_explicit g rnd2 B sc hseed]

/-- Claim C8 witness: with an explicit global seed, two resolver calls with
different random draws produce fully identical outputs. -/
theorem c8_deterministic_except_seed_witness :
    apply_defaults AppSettings.stock llm_steps_20 none (some gs_explicit_seed) none 17 =
      apply_defaults AppSettings.stock llm_steps_20 none (some gs_explicit_seed) none 99 := by
  obtain ⟨_, _, _, _, _, _, _, _, h⟩ :=
    c8_deterministic_except_seed AppSettings.stock llm_steps_20 none
      (some gs_explicit_seed) none 17 99
  exact h gs_explicit_seed 1234 rfl (by decide)

/-! ## Claim C10 -/

/-- Claim C10: when the web-research collaborator raises during research on
a new request with the research flag set, the exception is absorbed inside
the research step and prompt resolution proceeds exactly as if no research
had been requested. -/
theorem c10_research_failure_contained (app : AppSettings)
    (research_call : String → Except String ResearchResult) (instr : String)
    (llm : ParamDict) (gs : Option GlobalSettingsBag) (rnd : Int) (e : String)
    (herr : research_call instr = .error e) :
    generate_prompt_resolve app research_call instr llm none gs true rnd =
      generate_prompt_resolve app research_call instr llm none gs false rnd := by
  simp [generate_prompt_resolve, perform_web_research, herr]

/-- Claim C10 witness: a concrete run with an always-raising research
collaborator resolves identically to the research-disabled run. -/
theorem c10_research_failure_contained_witness :
    generate_prompt_resolve AppSettings.stock failing_research_call "a red fox in snow"
        llm_steps_20 none none true 0 =
      generate_prompt_resolve AppSettings.stock failing_research_call "a red fox in snow"
        llm_steps_20 none none false 0 :=
  c10_research_failure_contained AppSettings.stock failing_research_call
    "a red fox in snow" llm_steps_20 none 0 "Google Search API error" rfl

/-! ## Claim C2 -/

/-- Claim C2 does not hold as stated: with priorities [5, 1, 5, 10] enqueued
in that order and the first-enqueued priority-5 task carrying request id
"b" while the second carries "a", the worker does not dequeue the two
priority-5 tasks in insertion order. -/
theorem c2_counterexample :
    ¬ ((dequeue_order queue_scenario_ba).map QueuedTask.request_id =
      ["d", "b", "a", "c"]) := by
  decide

/-- Claim C2 (amended): the dequeue order is [10, 5, 5, 1] by caller
priority (stored negated in the min-first heap), but ties between the two
priority-5 tasks follow the dataclass comparison on the next field — the
lexicographically smaller request_id first — rather than insertion order:
both id assignments dequeue as ["d", "a", "b", "c"], which matches
insertion order only when the earlier task's id is the smaller one. -/
theorem c2_priority_order :
    (dequeue_order queue_scenario_ba).map QueuedTask.priority = [-10, -5, -5, -1] ∧
    (dequeue_order queue_scenario_ba).map QueuedTask.request_id = ["d", "a", "b", "c"] ∧
    (dequeue_order queue_scenario_ab).map QueuedTask.priority = [-10, -5, -5, -1] ∧
    (dequeue_order queue_scenario_ab).map QueuedTask.request_id = ["d", "a", "b", "c"] := by
  decide

/-! ## Claim C6 -/

/-- Claim C6 does not hold as stated: when the dispatched orchestrator call
raises, the worker-loop iteration does not reach `queue.task_done()`. -/
theorem c6_counterexample :
    ¬ ((worker_loop_iteration (Except.error (PipelineError.unexpected "boom"))).task_done_called = true) := by
  decide

/-- Claim C6 (amended): `task_done` is called exactly on the iterations
whose orchestrator call succeeds; on a raising call the iteration instead
logs and sleeps, skipping `task_done`. -/
theorem c6_task_done_on_success_only (outcome : Except PipelineError Unit) :
    ((worker_loop_iteration outcome).task_done_called = true ↔ ∃ u, outcome = Except.ok u) ∧
    (worker_loop_iteration outcome).slept =
      !(worker_loop_iteration outcome).task_done_called := by
  cases outcome <;> simp [worker_loop_iteration]

/-! ## Claim C9 -/

/-- Claim C9: every task re-enqueued by the crash-recovery pass has
priority 0 and both provider flags unset, so the worker dispatches it to
the default SD pipeline regardless of the provider mode or priority of the
original enqueue (neither is persisted). -/
theorem c9_restore_resets_mode_and_priority (store : List GenerationRequest)
    (t : QueuedTask) (ht : t ∈ (restore_pending_requests store).2) :
    t.priority = 0 ∧ t.use_gemini = false ∧ t.use_xai = false ∧
    dispatch_mode t = ProviderMode.sd := by
  unfold restore_pending_requests at ht
  simp only [List.mem_map, List.mem_filter] at ht
  obtain ⟨r, _, rfl⟩ := ht
  exact ⟨rfl, rfl, rfl, rfl⟩

/-- Claim C9 witness: recovering a store holding one interrupted request
yields a priority-0, SD-mode task. -/
theorem c9_restore_resets_mode_and_priority_witness :
    (⟨0, "p1", false, false⟩ : QueuedTask).priority = 0 ∧
    (⟨0, "p1", false, false⟩ : QueuedTask).use_gemini = false ∧
    (⟨0, "p1", false, false⟩ : QueuedTask).use_xai = false ∧
    dispatch_mode ⟨0, "p1", false, false⟩ = ProviderMode.sd :=
  c9_restore_resets_mode_and_priority [row_proc_1] ⟨0, "p1", false, false⟩ (by decide)

/-! ## Claim C4 -/

/-- Claim C4: recovering a store with exactly two PROCESSING rows and one
COMPLETED row resets exactly the two PROCESSING rows to PENDING, enqueues
one priority-0 task per reset row, and leaves the COMPLETED row entirely
unchanged. -/
theorem c4_crash_recovery (a b c : GenerationRequest)
    (ha : a.status = .processing) (hb : b.status = .processing)
    (hc : c.status = .completed) :
    restore_pending_requests [a, b, c] =
      ([{ a with status := .pending }, { b with status := .pending }, c],
       [⟨0, a.id, false, false⟩, ⟨0, b.id, false, false⟩]) := by
  simp [restore_pending_requests, is_restorable, ha, hb, hc]

/-- Claim C4 witness: the recovery equation at a concrete store. -/
theorem c4_crash_recovery_witness :
    restore_pending_requests [row_proc_1, row_proc_2, row_done] =
      ([{ row_proc_1 with status := .pending }, { row_proc_2 with status := .pending },
        row_done],
       [⟨0, "p1", false, false⟩, ⟨0, "p2", false, false⟩]) :=
  c4_crash_recovery row_proc_1 row_proc_2 row_done rfl rfl rfl

/-! ## Claim C7 -/

/-- Claim C7: when a task's pipeline raises, the orchestrator commits
FAILED with the error's human-readable message and re-raises the original
error; the worker-loop iteration then sleeps and continues, and a
subsequently enqueued unrelated task is processed to completion by the same
loop. -/
theorem c7_failure_isolated (a b : GenerationRequest) (p1 p2 : Int) (e : PipelineError)
    (hab : a.id ≠ b.id) :
    (process_image_generation [a, b] a.id (.error e)).2 = .error e ∧
    run_worker [a, b]
        [(⟨p1, a.id, false, false⟩, .error e), (⟨p2, b.id, false, false⟩, .ok ())] =
      ([{ a with status := .failed, error_message := some e.message },
        { b with status := .completed }],
       [⟨false, true⟩, ⟨true, false⟩]) := by
  have hba : ¬ (b.id = a.id) := Ne.symm hab
  constructor
  · simp [process_image_generation, lookup_request, List.find?]
  · simp [run_worker, process_image_generation, lookup_request, update_request,
      worker_loop_iteration, List.find?, hab, hba]

/-- Claim C7 witness: a concrete failing task followed by a concrete
succeeding one. -/
theorem c7_failure_isolated_witness :
    (process_image_generation [row_pending_a, row_pending_b] "a1"
      (.error (.app "SD API timeout"))).2 = .error (.app "SD API timeout") ∧
    run_worker [row_pending_a, row_pending_b]
        [(⟨0, "a1", false, false⟩, .error (.app "SD API timeout")),
         (⟨0, "b1", false, false⟩, .ok ())] =
      ([{ row_pending_a with status := .failed, error_message := some "SD API timeout" },
        { row_pending_b with status := .completed }],
       [⟨false, true⟩, ⟨true, false⟩]) :=
  c7_failure_isolated row_pending_a row_pending_b 0 0 (.app "SD API timeout") (by decide)

/-! ## Store lookup lemmas -/

theorem lookup_request_cons_pos (a : GenerationRequest) (t : List GenerationRequest)
    (j : String) (h : a.id = j) : lookup_request (a :: t) j = some a :=
  List.find?_cons_of_pos _ (by simp [h])

theorem lookup_request_cons_neg (a : GenerationRequest) (t : List GenerationRequest)
    (j : String) (h : ¬ (a.id = j)) : lookup_request (a :: t) j = lookup_request t j :=
  List.find?_cons_of_neg _ (by simp [h])

theorem lookup_request_map (g : GenerationRequest → GenerationRequest)
    (hg : ∀ r, (g r).id = r.id) (store : List GenerationRequest) (j : String) :
    lookup_request (store.map g) j = (lookup_request store j).map g := by
  induction store with
  | nil => rfl
  | cons a t ih =>
    by_cases h : a.id = j
    · rw [List.map_cons, lookup_request_cons_pos _ _ _ (by rw [hg]; exact h),
        lookup_request_cons_pos _ _ _ h]
      rfl
    · rw [List.map_cons, lookup_request_cons_neg _ _ _ (by rw [hg]; exact h),
        lookup_request_cons_neg _ _ _ h, ih]

theorem lookup_request_append (store l2 : List GenerationRequest) (j : String)
    (r : GenerationRequest) (h : lookup_request store j = some r) :
    lookup_request (store ++ l2) j = some r := by
  induction store with
  | nil => cases h
  | cons a t ih =>
    by_cases hc : a.id = j
    · rw [lookup_request_cons_pos _ _ _ hc] at h
      rw [List.cons_append, lookup_request_cons_pos _ _ _ hc]
      exact h
    · rw [lookup_request_cons_neg _ _ _ hc] at h
      rw [List.cons_append, lookup_request_cons_neg _ _ _ hc]
      exact ih h

theorem lookup_request_id_eq {store : List GenerationRequest} {j : String}
    {r : GenerationRequest} (h : lookup_request store j = some r) : r.id = j := by
  simpa using List.find?_some h

theorem lookup_request_mem {store : List GenerationRequest} {j : String}
    {r : GenerationRequest} (h : lookup_request store j = some r) : r ∈ store :=
  List.mem_of_find?_eq_some h

theorem lookup_request_none_iff (store : List GenerationRequest) (j : String) :
    lookup_request store j = none ↔ ∀ r ∈ store, r.id ≠ j := by
  simp [lookup_request, List.find?_eq_none]

theorem lookup_of_mem_nodup {store : List GenerationRequest} {r : GenerationRequest}
    (hn : (store.map GenerationRequest.id).Nodup) (hr : r ∈ store) :
    lookup_request store r.id = some r := by
  induction store with
  | nil => cases hr
  | cons a t ih =>
    rw [List.map_cons, List.nodup_cons] at hn
    rcases List.mem_cons.mp hr with rfl | hrt
    · exact lookup_request_cons_pos _ _ _ rfl
    · have hna : a.id ≠ r.id := by
        intro he
        exact hn.1 (he ▸ List.mem_map_of_mem _ hrt)
      rw [lookup_request_cons_neg _ _ _ hna]
      exact ih hn.2 hrt

theorem update_request_map_id (store : List GenerationRequest) (id : String)
    (f : GenerationRequest → GenerationRequest) (hf : ∀ r, (f r).id = r.id) :
    (update_request store id f).map GenerationRequest.id =
      store.map GenerationRequest.id := by
  unfold update_request
  rw [List.map_map]
  apply List.map_congr_left
  intro r _
  by_cases hc : r.id = id <;> simp [hc, hf]

theorem mem_update_request {store : List GenerationRequest} {id : String}
    {f : GenerationRequest → GenerationRequest} {r1 : GenerationRequest}
    (h : r1 ∈ update_request store id f) :
    ∃ r, r ∈ store ∧ r1 = if r.id = id then f r else r := by
  unfold update_request at h
  rcases List.mem_map.mp h with ⟨r, hr, he⟩
  refine ⟨r, hr, ?_⟩
  rw [← he]
  by_cases hc : r.id = id <;> simp [hc]

theorem inv_error_none {store : List GenerationRequest} {r : GenerationRequest}
    (hinv : error_message_invariant store) (hr : r ∈ store)
    (hst : r.status ≠ .failed) : r.error_message = none := by
  rcases he : r.error_message with _ | m
  · rfl
  · exact absurd ((hinv r hr).mpr (by simp [he])) hst

theorem is_restorable_ne_failed {st : RequestStatus} (h : is_restorable st = true) :
    st ≠ .failed := by
  cases st <;> simp_all [is_restorable]

/-! ## The inductive invariant is preserved -/

theorem good_state_init : good_state init_state := by
  refine ⟨?_, ?_, ?_, ?_, ?_⟩ <;> simp [init_state, error_message_invariant]

theorem good_state_step {s s1 : CoreState} (h : good_state s) (hs : Step s s1) :
    good_state s1 := by
  obtain ⟨hinv, hnodup, hqnodup, hqok, hwok⟩ := h
  cases hs with
  | create id instr wr hfresh =>
    have hid : ∀ r ∈ s.store, r.id ≠ id := (lookup_request_none_iff _ _).mp hfresh
    refine ⟨?_, ?_, hqnodup, ?_, ?_⟩
    · intro r hr
      rcases List.mem_append.mp hr with hr | hr
      · exact hinv r hr
      · rcases List.mem_singleton.mp hr with rfl
        simp
    · rw [List.map_append]
      simp only [List.map_cons, List.map_nil]
      rw [List.nodup_append]
      refine ⟨hnodup, List.nodup_singleton _, ?_⟩
      intro x hx
      rcases List.mem_map.mp hx with ⟨r, hr, rfl⟩
      simp [hid r hr]
    · intro j hj
      rcases hqok j hj with ⟨r, hl, hst⟩
      exact ⟨r, lookup_request_append _ _ _ _ hl, hst⟩
    · intro j hj
      rcases hwok j hj with ⟨⟨r, hl, hst, he⟩, hnq⟩
      exact ⟨⟨r, lookup_request_append _ _ _ _ hl, hst, he⟩, hnq⟩
  | enqueue id r hr hst hq hw =>
    refine ⟨hinv, hnodup, ?_, ?_, ?_⟩
    · simp [List.nodup_append, hqnodup, hq]
    · intro j hj
      rcases List.mem_append.mp hj with hj | hj
      · exact hqok j hj
      · rcases List.mem_singleton.mp hj with rfl
        exact ⟨r, hr, hst⟩
    · intro j hj
      rcases hwok j hj with ⟨hex, hnq⟩
      have hne : j ≠ id := by
        intro he
        exact hw (he ▸ hj)
      refine ⟨hex, ?_⟩
      simp [List.mem_append, hnq, hne]
  | restore hq hw =>
    simp only [restore_pending_requests]
    have hgid : ∀ r : GenerationRequest,
        ((fun r => if is_restorable r.status then { r with status := .pending } else r)
          r).id = r.id := by
      intro r
      by_cases hc : is_restorable r.status <;> simp [hc]
    refine ⟨?_, ?_, ?_, ?_, ?_⟩
    · intro r1 hr1
      rcases List.mem_map.mp hr1 with ⟨r, hr, rfl⟩
      by_cases hc : is_restorable r.status
      · have := inv_error_none hinv hr (is_restorable_ne_failed hc)
        simp [hc, this]
      · simpa [hc] using hinv r hr
    · rw [List.map_map]
      have : ∀ r ∈ s.store,
          (GenerationRequest.id ∘ fun r =>
            if is_restorable r.status then { r with status := .pending } else r) r =
          GenerationRequest.id r := by
        intro r _
        simp only [Function.comp]
        exact hgid r
      rw [List.map_congr_left this]
      exact hnodup
    · rw [List.map_map]
      have hsub : List.Sublist
          ((List.filter (fun r => is_restorable r.status) s.store).map
            GenerationRequest.id)
          (s.store.map GenerationRequest.id) :=
        (List.filter_sublist _).map _
      have : (QueuedTask.request_id ∘ fun r : GenerationRequest =>
          (⟨0, r.id, false, false⟩ : QueuedTask)) = GenerationRequest.id := rfl
      rw [this]
      exact hnodup.sublist hsub
    · intro j hj
      rw [List.map_map] at hj
      rcases List.mem_map.mp hj with ⟨r, hr, rfl⟩
      have hmem : r ∈ s.store := (List.mem_filter.mp hr).1
      have hres : is_restorable r.status = true := by
        simpa using (List.mem_filter.mp hr).2
      refine ⟨{ r with status := .pending }, ?_, rfl⟩
      have hl := lookup_of_mem_nodup hnodup hmem
      simp only [Function.comp_apply]
      rw [lookup_request_map _ hgid, hl]
      simp [hres]
    · intro j hj
      simp at hj
  | worker_begin id l1 l2 hq hw hfound =>
    have hidq : id ∈ s.queue := by
      rw [hq]
      simp
    rcases hqok id hidq with ⟨r0, hl0, hp0⟩
    have hmem0 := lookup_request_mem hl0
    have hid0 := lookup_request_id_eq hl0
    have herr0 : r0.error_message = none :=
      inv_error_none hinv hmem0 (by simp [hp0])
    have hgid : ∀ r : GenerationRequest,
        ((fun r => if r.id == id then { r with status := RequestStatus.processing }
          else r) r).id = r.id := by
      intro r
      by_cases hc : r.id = id <;> simp [hc]
    have hnodup_q : id ∉ l1 ∧ id ∉ l2 ∧ (l1 ++ l2).Nodup := by
      rw [hq] at hqnodup
      rw [List.nodup_append] at hqnodup
      obtain ⟨h1, h2, hdisj⟩ := hqnodup
      rw [List.nodup_cons] at h2
      refine ⟨fun hc => hdisj hc (List.mem_cons_self _ _), h2.1, ?_⟩
      rw [List.nodup_append]
      exact ⟨h1, h2.2, fun a ha hb => hdisj ha (List.mem_cons_of_mem _ hb)⟩
    refine ⟨?_, ?_, hnodup_q.2.2, ?_, ?_⟩
    · intro r1 hr1
      rcases mem_update_request hr1 with ⟨r, hr, rfl⟩
      by_cases hc : r.id = id
      · have : r = r0 := by
          have := lookup_of_mem_nodup hnodup hr
          rw [hc, hl0] at this  -- careful direction
          exact (Option.some.inj this).symm
        subst this
        simp [hc, herr0]
      · simpa [hc] using hinv r hr
    · dsimp only
      rw [update_request_map_id s.store id
        (fun r => { r with status := RequestStatus.processing }) (fun r => rfl)]
      exact hnodup
    · intro j hj
      have hjq : j ∈ s.queue := by
        rw [hq]
        rcases List.mem_append.mp hj with hj | hj
        · exact List.mem_append.mpr (Or.inl hj)
        · exact List.mem_append.mpr (Or.inr (List.mem_cons_of_mem _ hj))
      have hjne : j ≠ id := by
        intro he
        subst he
        rcases List.mem_append.mp hj with hj | hj
        · exact hnodup_q.1 hj
        · exact hnodup_q.2.1 hj
      rcases hqok j hjq with ⟨r, hl, hp⟩
      refine ⟨r, ?_, hp⟩
      dsimp only
      rw [update_request, lookup_request_map _ hgid, hl]
      have : r.id ≠ id := by
        rw [lookup_request_id_eq hl]
        exact hjne
      simp [this]
    · intro j hj
      have hj' : j = id := by
        cases hj
        rfl
      subst hj'
      refine ⟨⟨{ r0 with status := RequestStatus.processing }, ?_, rfl, herr0⟩, ?_⟩
      · dsimp only
        rw [update_request, lookup_request_map _ hgid, hl0]
        simp [hid0]
      · intro hc
        rcases List.mem_append.mp hc with hc | hc
        · exact hnodup_q.1 hc
        · exact hnodup_q.2.1 hc
  | worker_begin_missing id l1 l2 hq hw hmiss =>
    have hnodup_q : (l1 ++ l2).Nodup := by
      rw [hq] at hqnodup
      rw [List.nodup_append] at hqnodup
      obtain ⟨h1, h2, hdisj⟩ := hqnodup
      rw [List.nodup_cons] at h2
      rw [List.nodup_append]
      exact ⟨h1, h2.2, fun a ha hb => hdisj ha (List.mem_cons_of_mem _ hb)⟩
    refine ⟨hinv, hnodup, hnodup_q, ?_, ?_⟩
    · intro j hj
      apply hqok
      rw [hq]
      rcases List.mem_append.mp hj with hj | hj
      · exact List.mem_append.mpr (Or.inl hj)
      · exact List.mem_append.mpr (Or.inr (List.mem_cons_of_mem _ hj))
    · intro j hj
      simp at hj
  | worker_complete id hw =>
    rcases hwok id hw with ⟨⟨r0, hl0, hp0, he0⟩, hnq⟩
    have hid0 := lookup_request_id_eq hl0
    have hgid : ∀ r : GenerationRequest,
        ((fun r => if r.id == id then { r with status := RequestStatus.completed }
          else r) r).id = r.id := by
      intro r
      by_cases hc : r.id = id <;> simp [hc]
    refine ⟨?_, ?_, hqnodup, ?_, ?_⟩
    · intro r1 hr1
      rcases mem_update_request hr1 with ⟨r, hr, rfl⟩
      by_cases hc : r.id = id
      · have : r = r0 := by
          have := lookup_of_mem_nodup hnodup hr
          rw [hc, hl0] at this
          exact (Option.some.inj this).symm
        subst this
        simp [hc, he0]
      · simpa [hc] using hinv r hr
    · dsimp only
      rw [update_request_map_id s.store id
        (fun r => { r with status := RequestStatus.completed }) (fun r => rfl)]
      exact hnodup
    · intro j hj
      have hjne : j ≠ id := by
        intro he
        exact hnq (he ▸ hj)
      rcases hqok j hj with ⟨r, hl, hp⟩
      refine ⟨r, ?_, hp⟩
      dsimp only
      rw [update_request, lookup_request_map _ hgid, hl]
      have : r.id ≠ id := by
        rw [lookup_request_id_eq hl]
        exact hjne
      simp [this]
    · intro j hj
      simp at hj
  | worker_fail id msg hw =>
    rcases hwok id hw with ⟨⟨r0, hl0, hp0, he0⟩, hnq⟩
    have hid0 := lookup_request_id_eq hl0
    have hgid : ∀ r : GenerationRequest,
        ((fun r => if r.id == id then
          { r with status := RequestStatus.failed, error_message := some msg }
          else r) r).id = r.id := by
      intro r
      by_cases hc : r.id = id <;> simp [hc]
    refine ⟨?_, ?_, hqnodup, ?_, ?_⟩
    · intro r1 hr1
      rcases mem_update_request hr1 with ⟨r, hr, rfl⟩
      by_cases hc : r.id = id
      · simp [hc]
      · simpa [hc] using hinv r hr
    · dsimp only
      rw [update_request_map_id s.store id
        (fun r => { r with status := RequestStatus.failed, error_message := some msg })
        (fun r => rfl)]
      exact hnodup
    · intro j hj
      have hjne : j ≠ id := by
        intro he
        exact hnq (he ▸ hj)
      rcases hqok j hj with ⟨r, hl, hp⟩
      refine ⟨r, ?_, hp⟩
      dsimp only
      rw [update_request, lookup_request_map _ hgid, hl]
      have : r.id ≠ id := by
        rw [lookup_request_id_eq hl]
        exact hjne
      simp [this]
    · intro j hj
      simp at hj

/-! ## Claim C3 -/

/-- Claim C3 does not hold as stated: the public operations reach a state
(create request "r"; enqueue it; worker fails it with message "boom";
enqueue the same id again; worker begins it) whose only row is PROCESSING
while still carrying the stale error message, because the orchestrator
never clears `error_message`. -/
theorem c3_counterexample :
    RawReach stale_error_state ∧ ¬ error_message_invariant stale_error_state.store := by
  constructor
  · have h1 : RawReach ⟨[⟨"r", "draw a fox", false, .pending, none⟩], [], .idle⟩ :=
      RawReach.step RawReach.init (RawStep.create init_state "r" "draw a fox" false rfl)
    have h2 : RawReach ⟨[⟨"r", "draw a fox", false, .pending, none⟩], ["r"], .idle⟩ :=
      RawReach.step h1 (RawStep.enqueue _ "r")
    have h3 : RawReach ⟨[⟨"r", "draw a fox", false, .processing, none⟩], [], .started "r"⟩ :=
      RawReach.step h2 (RawStep.worker_begin _ "r" [] [] rfl rfl (by decide))
    have h4 : RawReach ⟨[⟨"r", "draw a fox", false, .failed, some "boom"⟩], [], .idle⟩ :=
      RawReach.step h3 (RawStep.worker_fail _ "r" "boom" rfl)
    have h5 : RawReach ⟨[⟨"r", "draw a fox", false, .failed, some "boom"⟩], ["r"], .idle⟩ :=
      RawReach.step h4 (RawStep.enqueue _ "r")
    exact RawReach.step h5 (RawStep.worker_begin _ "r" [] [] rfl rfl (by decide))
  · decide

/-- Claim C3 (amended): in every state reachable under the admission
discipline the system's call sites obey — tasks are enqueued only for
requests that are currently PENDING and not already queued or in process —
every request row has a non-null error_message exactly when its status is
FAILED. -/
theorem c3_error_iff_failed (s : CoreState) (h : Reach s) :
    error_message_invariant s.store := by
  have hg : good_state s := by
    induction h with
    | init => exact good_state_init
    | step _ hs ih => exact good_state_step ih hs
  exact hg.1

/-- Claim C3 witness: the invariant instantiated at a small reachable
state. -/
theorem c3_error_iff_failed_witness :
    error_message_invariant [⟨"w", "hello", false, .pending, none⟩] :=
  c3_error_iff_failed ⟨[⟨"w", "hello", false, .pending, none⟩], [], .idle⟩
    (Reach.step Reach.init (Step.create init_state "w" "hello" false rfl))

end DiffusePilot
